import Mathlib

/-!
Shallow embedding of the EggTimer timer lifecycle engine.

Source files embedded:
- `src/core/timer.ts` — the `Timer` record and `TimerStatus` enum;
- `src/core/timer-service.ts` — `TimerService` (create/get/pause/resume/
  cancel/list/completeTimer/generateId/parseDuration);
- `src/infra/memory-store.ts` — `InMemoryTimerStore` (a `Map<string, Timer>`
  that stores and returns copies, so callers never alias stored records);
- `src/infra/scheduler.ts` — `NodeScheduler` (per-id pending wake-ups with an
  internally created `AbortController` per registration).

Millisecond quantities (`performance.now()` values, durations) are modelled as
`Int`; wall-clock timestamps (`new Date()`) as `Nat` ticks.  The store is an
association list keyed by `Timer.id`, mirroring `Map` insertion-order
semantics (replace at an existing key, append at a fresh one).  Because
`InMemoryTimerStore.get`/`put`/`list` copy records (`{ ...timer }`), the pure
value semantics of the embedding is exact: mutating a record returned by
`get` does not change the store, which is why `getTimer` is modelled as a
pure function of the store.

Effects of a service operation are returned explicitly: the new store, the
list of events emitted on the bus, and the list of scheduler commands issued.
Randomness (`Math.random()`) is threaded as an explicit draw: the string form
`Math.random().toString(36)` of the drawn float is passed in, and
`generateId` takes its `substring(2, 15)` exactly as the source does.
-/

namespace EggTimer

/-- Status enum from `src/core/timer.ts` (`TimerStatus`). -/
inductive TimerStatus where
  | created
  | running
  | paused
  | completed
  | canceled
deriving DecidableEq, Repr

instance : BEq TimerStatus := ⟨fun a b => decide (a = b)⟩

instance : LawfulBEq TimerStatus where
  eq_of_beq h := of_decide_eq_true h
  rfl := by intro a; simp [BEq.beq]

/-- The persisted timer record from `src/core/timer.ts` (`interface Timer`). -/
structure Timer where
  id : String
  name : Option String
  durationMs : Int
  startMonotonicMs : Int
  paused : Bool
  remainingMs : Int
  createdAt : Nat
  status : TimerStatus
deriving DecidableEq, Repr

/-- Event types from `src/core/interfaces.ts` (`TimerEventType`). -/
inductive TimerEventType where
  | timer_created
  | timer_completed
  | timer_paused
  | timer_resumed
  | timer_canceled
deriving DecidableEq, Repr

/-- Event payload from `src/core/interfaces.ts` (`TimerEvent`); the optional
free-form `data` field is never populated by the service and is omitted. -/
structure TimerEvent where
  type : TimerEventType
  id : String
  name : Option String
  timestamp : Nat
deriving DecidableEq, Repr

/-- A call the service makes into its `Scheduler` collaborator. -/
inductive SchedCmd where
  | schedule (id : String) (dueInMs : Int)
  | cancel (id : String)
deriving DecidableEq, Repr

/-- The `InMemoryTimerStore` contents: a `Map<string, Timer>` as an
association list ordered by insertion. -/
abbrev Store := List Timer

/-- `InMemoryTimerStore.get`: first record with the given id (the source
returns a copy `{ ...timer }`; copying is implicit in value semantics). -/
def storeGet (store : Store) (id : String) : Option Timer :=
  match store with
  | [] => none
  | u :: rest => if u.id == id then some u else storeGet rest id

/-- `InMemoryTimerStore.put`: `Map.set` semantics — replace the record at an
existing key in place, append a record with a fresh key at the end. -/
def storePut (store : Store) (t : Timer) : Store :=
  match store with
  | [] => [t]
  | u :: rest => if u.id == t.id then t :: rest else u :: storePut rest t

/-- `InMemoryTimerStore.list`: all records in insertion order (the source
returns copies `{ ...timer }`, identity under value semantics). -/
def storeList (store : Store) : List Timer :=
  store

/-- Millisecond multiplier for a unit character, from the `switch (unit)` in
`TimerService.parseDuration` (units `s`, `m`, `h`, `d`). -/
def unitMs (c : Char) : Option Nat :=
  if c = 's' then some 1000
  else if c = 'm' then some (60 * 1000)
  else if c = 'h' then some (60 * 60 * 1000)
  else if c = 'd' then some (24 * 60 * 60 * 1000)
  else none

/-- One step of the `/(\d+)([smhd])/g` scan in `TimerService.parseDuration`:
the state is (sum so far, value of the digit run currently being read).  A
digit extends the current run; a unit letter immediately after a nonempty
digit run closes a match and adds its milliseconds; any other character (or a
unit with no pending digits) discards the pending run.  Folding this over the
string yields exactly the sum of the regex's non-overlapping matches. -/
def scanStep (st : Nat × Option Nat) (c : Char) : Nat × Option Nat :=
  if c.isDigit then
    (st.1, some ((st.2.getD 0) * 10 + (c.toNat - 48)))
  else
    match st.2, unitMs c with
    | some v, some k => (st.1 + v * k, none)
    | _, _ => (st.1, none)

/-- Total milliseconds contributed by the `<integer><unit>` tokens of a
(lower-cased) duration string: the `while ((match = regex.exec(...)))` sum in
`TimerService.parseDuration`. -/
def parseTokens (cs : List Char) : Nat :=
  (cs.foldl scanStep (0, none)).1

/-- The three runtime shapes `TimerService.parseDuration` accepts:
`typeof duration === 'number'`, an object with an `ms` member, or a string. -/
inductive Duration where
  | num (n : Int)
  | obj (ms : Int)
  | str (s : String)
deriving DecidableEq, Repr

/-- `TimerService.parseDuration`.  A number is returned as-is; an `{ms}`
object yields its member as-is; a string is lower-cased, scanned for
`<integer><unit>` tokens which are summed, and rejected (`throw`) exactly
when the sum is zero.  `Except.error` models the thrown `Error`. -/
def parseDuration : Duration → Except String Int
  | Duration.num n => Except.ok n
  | Duration.obj n => Except.ok n
  | Duration.str s =>
    let totalMs := parseTokens (s.data.map Char.toLower)
    if totalMs == 0 then Except.error ("Invalid duration format: " ++ s)
    else Except.ok (totalMs : Int)

/-- `TimerService.generateId`: `Math.random().toString(36).substring(2, 15)`.
The argument is the `toString(36)` rendering of the drawn float (e.g.
`"0.k3j9x"`); `substring(2, 15)` keeps characters 2 through 14. -/
def generateId (randomStr : String) : String :=
  String.mk ((randomStr.data.drop 2).take 13)

/-- The effects of one service operation: the store afterwards, the events
emitted on the bus (in order), and the scheduler calls issued (in order). -/
structure OpResult where
  store : Store
  events : List TimerEvent
  cmds : List SchedCmd
deriving DecidableEq, Repr

/-- The `return; // Idempotent` branches: store untouched, nothing emitted,
no scheduler call. -/
def noopResult (store : Store) : OpResult :=
  ⟨store, [], []⟩

/-- Request body from `src/core/timer.ts` (`TimerCreateRequest`). -/
structure CreateRequest where
  name : Option String
  duration : Duration
deriving DecidableEq, Repr

/-- `TimerService.createTimer`.  `randomStr` is the draw consumed by
`generateId`; `now` is `performance.now()`; `wall` is `new Date()`.  A parse
failure propagates (`Except.error`) before anything is stored, scheduled or
emitted; otherwise the record is stored with status Running, a completion
wake-up is scheduled for `durationMs`, and a created event is emitted. -/
def createTimer (req : CreateRequest) (randomStr : String) (now : Int)
    (wall : Nat) (store : Store) : Except String (String × OpResult) :=
  let id := generateId randomStr
  match parseDuration req.duration with
  | Except.error e => Except.error e
  | Except.ok durationMs =>
    let timer : Timer :=
      { id := id, name := req.name, durationMs := durationMs,
        startMonotonicMs := now, paused := false, remainingMs := durationMs,
        createdAt := wall, status := TimerStatus.running }
    Except.ok (id,
      ⟨storePut store timer,
       [⟨TimerEventType.timer_created, id, req.name, wall⟩],
       [SchedCmd.schedule id durationMs]⟩)

/-- `TimerService.getTimer`: read the record; when status is Running and not
paused, recompute `remainingMs = max(0, durationMs − (now − startMonotonicMs))`
on the returned copy.  The store is not an output: `InMemoryTimerStore.get`
hands back a copy, so the recomputation never reaches the stored record. -/
def getTimer (now : Int) (store : Store) (id : String) : Option Timer :=
  match storeGet store id with
  | none => none
  | some timer =>
    if timer.status == TimerStatus.running && !timer.paused then
      some { timer with
             remainingMs := max 0 (timer.durationMs - (now - timer.startMonotonicMs)) }
    else some timer

/-- `TimerService.pauseTimer`: no-op unless the record exists, its status is
Running and it is not already paused; otherwise snapshot the remaining time,
mark Paused, persist, cancel the wake-up, emit a paused event. -/
def pauseTimer (now : Int) (wall : Nat) (store : Store) (id : String) : OpResult :=
  match storeGet store id with
  | none => noopResult store
  | some timer =>
    if timer.status != TimerStatus.running || timer.paused then
      noopResult store
    else
      let elapsed := now - timer.startMonotonicMs
      let timer' := { timer with
                      remainingMs := max 0 (timer.durationMs - elapsed),
                      paused := true, status := TimerStatus.paused }
      ⟨storePut store timer',
       [⟨TimerEventType.timer_paused, id, timer.name, wall⟩],
       [SchedCmd.cancel id]⟩

/-- `TimerService.resumeTimer`: no-op unless the record exists with status
Paused; otherwise restart the run segment from the snapshot (`durationMs :=
remainingMs`, fresh anchor), persist, schedule a wake-up for the snapshot,
emit a resumed event. -/
def resumeTimer (now : Int) (wall : Nat) (store : Store) (id : String) : OpResult :=
  match storeGet store id with
  | none => noopResult store
  | some timer =>
    if timer.status != TimerStatus.paused then
      noopResult store
    else
      let timer' := { timer with
                      startMonotonicMs := now, durationMs := timer.remainingMs,
                      paused := false, status := TimerStatus.running }
      ⟨storePut store timer',
       [⟨TimerEventType.timer_resumed, id, timer.name, wall⟩],
       [SchedCmd.schedule id timer'.remainingMs]⟩

/-- `TimerService.cancelTimer`: no-op when the record is missing or already
Completed or Canceled; otherwise mark Canceled, persist, cancel the wake-up,
emit a canceled event. -/
def cancelTimer (wall : Nat) (store : Store) (id : String) : OpResult :=
  match storeGet store id with
  | none => noopResult store
  | some timer =>
    if timer.status == TimerStatus.completed || timer.status == TimerStatus.canceled then
      noopResult store
    else
      let timer' := { timer with status := TimerStatus.canceled }
      ⟨storePut store timer',
       [⟨TimerEventType.timer_canceled, id, timer.name, wall⟩],
       [SchedCmd.cancel id]⟩

/-- `TimerService.listTimers`: `return this.store.list()` — the persisted
records exactly as stored, with no recomputation of `remainingMs`. -/
def listTimers (store : Store) : List Timer :=
  storeList store

/-- `TimerService.completeTimer` (the scheduler's completion callback): no-op
when the record is missing or already Completed; otherwise mark Completed
with `remainingMs = 0`, persist, emit a completed event.  The guard checks
only Completed — not Running — which is what claims C1 and C2 turn on. -/
def completeTimer (wall : Nat) (store : Store) (id : String) : OpResult :=
  match storeGet store id with
  | none => noopResult store
  | some timer =>
    if timer.status == TimerStatus.completed then
      noopResult store
    else
      let timer' := { timer with status := TimerStatus.completed, remainingMs := 0 }
      ⟨storePut store timer',
       [⟨TimerEventType.timer_completed, id, timer.name, wall⟩],
       []⟩

/-!
The `NodeScheduler` from `src/infra/scheduler.ts`.  Each `schedule(id,
dueInMs, callback, signal)` call first cancels any existing registration for
`id`, then creates its own fresh `AbortController`, records it in the
per-instance map, and awaits `sleep(dueInMs, undefined, { signal:
abortController.signal })`; the callback runs exactly when the *internal*
controller's signal is not aborted.  The `signal` parameter supplied by the
caller is captured but never read.  A pending wake-up is modelled as a record
carrying both the internal controller's aborted flag (the one the `if
(!abortController.signal.aborted)` check reads) and the aborted state of the
caller-supplied signal (which nothing reads); `cancel`/`shutdown` abort the
internal controller of the matching registrations.
-/

/-- One in-flight wake-up of `NodeScheduler.schedule`: the registration's
identity and due delay, the internal `AbortController`'s aborted flag, and
the aborted state of the caller-supplied `signal` argument. -/
structure PendingWakeUp where
  id : String
  dueInMs : Int
  internalAborted : Bool
  callerAborted : Bool
deriving DecidableEq, Repr

/-- Whether the wake-up's callback will run when its sleep elapses: the
source checks `if (!abortController.signal.aborted)` — the internal
controller only.  The caller-supplied signal does not appear. -/
def firesCallback (w : PendingWakeUp) : Bool :=
  !w.internalAborted

/-- Aborting the caller-supplied `AbortSignal` of a wake-up: only the
captured caller flag changes, because the scheduler never wired that signal
into its wait or its check. -/
def abortCallerSignal (w : PendingWakeUp) : PendingWakeUp :=
  { w with callerAborted := true }

/-- `NodeScheduler.cancel`: abort the internal controller of the
registration for `id` (and drop it from the map; an aborted registration is
observationally dead, so only the flag is tracked here). -/
def nodeCancel (pending : List PendingWakeUp) (id : String) : List PendingWakeUp :=
  pending.map (fun w => if w.id == id then { w with internalAborted := true } else w)

/-- `NodeScheduler.schedule`: cancel any prior registration for `id`, then
install a fresh one whose internal controller starts unaborted — regardless
of the state of the caller-supplied signal, which is merely captured. -/
def nodeSchedule (pending : List PendingWakeUp) (id : String) (dueInMs : Int)
    (callerAborted : Bool) : List PendingWakeUp :=
  nodeCancel pending id ++ [⟨id, dueInMs, false, callerAborted⟩]

/-- `NodeScheduler.shutdown`: abort every registration's internal
controller. -/
def nodeShutdown (pending : List PendingWakeUp) : List PendingWakeUp :=
  pending.map (fun w => { w with internalAborted := true })

/-! Helper lemmas about the association-list store. -/

/-- A record found under key `id` carries that id. -/
theorem storeGet_id {store : Store} {id : String} {t : Timer}
    (h : storeGet store id = some t) : t.id = id := by
  induction store with
  | nil => simp [storeGet] at h
  | cons u rest ih =>
    by_cases hu : u.id == id
    · simp [storeGet, hu] at h
      subst h
      exact eq_of_beq hu
    · simp [storeGet, hu] at h
      exact ih h

/-- Read-after-write on the store: `put` followed by `get` of the same key
returns the record just written. -/
theorem storeGet_storePut_self (store : Store) (t : Timer) :
    storeGet (storePut store t) t.id = some t := by
  induction store with
  | nil => simp [storePut, storeGet]
  | cons u rest ih =>
    by_cases hu : u.id == t.id
    · simp [storePut, storeGet, hu]
    · simp [storePut, storeGet, hu, ih]

/-- Writing a record whose key is fresh appends it, leaving every existing
record in place. -/
theorem storePut_of_fresh {store : Store} {t : Timer}
    (h : ∀ u ∈ store, u.id ≠ t.id) : storePut store t = store ++ [t] := by
  induction store with
  | nil => simp [storePut]
  | cons u rest ih =>
    have hu : (u.id == t.id) = false := by
      simpa using h u (by simp)
    simp [storePut, hu]
    exact ih (fun v hv => h v (by simp [hv]))

/-- A record reachable through `storeGet` is a member of the store. -/
theorem storeGet_mem {store : Store} {id : String} {t : Timer}
    (h : storeGet store id = some t) : t ∈ store := by
  induction store with
  | nil => simp [storeGet] at h
  | cons u rest ih =>
    by_cases hu : u.id == id
    · simp [storeGet, hu] at h
      simp [h]
    · simp [storeGet, hu] at h
      simp [ih h]

/-! Sample records used by the concrete theorems below. -/

/-- A paused timer as `pauseTimer` persists it: 6 s of a 10 s run left. -/
def samplePaused : Timer :=
  { id := "p1", name := some "tea", durationMs := 10000, startMonotonicMs := 0,
    paused := true, remainingMs := 6000, createdAt := 0,
    status := TimerStatus.paused }

/-- A canceled timer as `cancelTimer` persists it. -/
def sampleCanceled : Timer :=
  { id := "c1", name := none, durationMs := 1000, startMonotonicMs := 0,
    paused := false, remainingMs := 1000, createdAt := 0,
    status := TimerStatus.canceled }

/-- A running timer whose persisted `remainingMs` is still the initial
duration (as `createTimer` writes it; nothing updates it while running). -/
def sampleRunning : Timer :=
  { id := "r1", name := none, durationMs := 1000, startMonotonicMs := 0,
    paused := false, remainingMs := 1000, createdAt := 0,
    status := TimerStatus.running }

/-- A completed timer as `completeTimer` persists it. -/
def sampleCompleted : Timer :=
  { id := "d1", name := none, durationMs := 500, startMonotonicMs := 0,
    paused := false, remainingMs := 0, createdAt := 0,
    status := TimerStatus.completed }

/-- C1: the claim says the completion callback is a no-op whenever the
record's status is not Running.  The code's guard checks only Completed
(`if (!timer || timer.status === TimerStatus.COMPLETED) return`), so a
record in status Paused — reachable when an in-flight firing loses the
abort race against `pauseTimer`'s `scheduler.cancel` — is transitioned to
Completed with `remainingMs = 0`, persisted, and a completed event is
emitted, exactly what the claim (and the spec's race guard) rules out. -/
theorem completeTimer_fires_on_paused :
    completeTimer 7 [samplePaused] "p1" =
      ⟨[{ samplePaused with status := TimerStatus.completed, remainingMs := 0 }],
       [⟨TimerEventType.timer_completed, "p1", some "tea", 7⟩], []⟩ := by
  decide

/-- C2: the claim says Completed and Canceled are absorbing under every
engine operation.  `completeTimer`'s guard checks only Completed, so a
Canceled record — terminal by the spec — is mutated to Completed with
`remainingMs = 0` and a completed event is emitted when a stale firing
callback reaches it. -/
theorem completeTimer_mutates_canceled :
    completeTimer 9 [sampleCanceled] "c1" =
      ⟨[{ sampleCanceled with status := TimerStatus.completed, remainingMs := 0 }],
       [⟨TimerEventType.timer_completed, "c1", none, 9⟩], []⟩ := by
  decide

/-- C3 counterexample: the claim says a duration specification that is the
number 0 is rejected with InvalidDuration and creates no timer.  The code
returns a `typeof duration === 'number'` argument unchecked, so
`create(duration = 0)` succeeds and stores a timer with `durationMs = 0`. -/
theorem createTimer_accepts_zero_number :
    createTimer ⟨none, Duration.num 0⟩ "0.z" 0 0 [] =
      Except.ok ("z",
        ⟨[⟨"z", none, 0, 0, false, 0, 0, TimerStatus.running⟩],
         [⟨TimerEventType.timer_created, "z", none, 0⟩],
         [SchedCmd.schedule "z" 0]⟩) := rfl

/-- C3 amended: only the string shape is validated.  A number and an `{ms}`
object are accepted as-is for every value, including zero and negative
ones; a string is rejected (with the InvalidDuration error, creating no
timer) exactly when its `<integer><unit>` tokens sum to zero, and accepted
with the token sum otherwise. -/
theorem duration_validation_characterized
    (n : Int) (z s : String) (name : Option String) (randomStr : String)
    (now : Int) (wall : Nat) (store : Store)
    (hz : parseTokens (z.data.map Char.toLower) = 0)
    (hs : parseTokens (s.data.map Char.toLower) ≠ 0) :
    parseDuration (Duration.num n) = Except.ok n ∧
    parseDuration (Duration.obj n) = Except.ok n ∧
    createTimer ⟨name, Duration.str z⟩ randomStr now wall store =
      Except.error ("Invalid duration format: " ++ z) ∧
    parseDuration (Duration.str s) =
      Except.ok (parseTokens (s.data.map Char.toLower)) := by
  refine ⟨rfl, rfl, ?_, ?_⟩
  · simp [createTimer, parseDuration, hz]
  · simp [parseDuration, hs]

/-- Witness for the amended C3 theorem at `n = -3`, `z = "0s"`,
`s = "2h30m"`. -/
theorem duration_validation_characterized_witness :
    parseDuration (Duration.num (-3)) = Except.ok (-3) ∧
    parseDuration (Duration.obj (-3)) = Except.ok (-3) ∧
    createTimer ⟨none, Duration.str "0s"⟩ "0.q" 4 2 [] =
      Except.error ("Invalid duration format: " ++ "0s") ∧
    parseDuration (Duration.str "2h30m") =
      Except.ok (parseTokens ("2h30m".data.map Char.toLower)) :=
  duration_validation_characterized (-3) "0s" "2h30m" none "0.q" 4 2 []
    (by decide) (by decide)

/-- C4 counterexample: the claim says `list` recomputes a Running entry's
`remainingMs` exactly as `get` does.  At monotonic time 400 `get` returns
the record with `remainingMs` recomputed to 600, while `list` returns the
persisted record with the stale value 1000. -/
theorem listTimers_stale_counterexample :
    listTimers [sampleRunning] = [sampleRunning] ∧
    getTimer 400 [sampleRunning] "r1" =
      some { sampleRunning with remainingMs := 600 } ∧
    sampleRunning.remainingMs = 1000 := by
  refine ⟨rfl, ?_, rfl⟩
  decide

/-- C4 amended: `list` returns all known timer records exactly as
persisted — every record `get`-reachable in the store appears in the output
with all fields, `remainingMs` included, equal to the stored values; no
recomputation for Running entries takes place (unlike `get`). -/
theorem listTimers_returns_persisted
    (store : Store) (id : String) (t : Timer)
    (h : storeGet store id = some t) :
    listTimers store = store ∧ t ∈ listTimers store :=
  ⟨rfl, storeGet_mem h⟩

/-- Witness for the amended C4 theorem on a one-record store. -/
theorem listTimers_returns_persisted_witness :
    listTimers [sampleRunning] = [sampleRunning] ∧
    sampleRunning ∈ listTimers [sampleRunning] :=
  listTimers_returns_persisted [sampleRunning] "r1" sampleRunning (by decide)

/-- C5: `create(duration = "2h30m")` stores `durationMs = 9000000`;
`create(duration = {ms: 500})` stores `durationMs = 500`;
`create(duration = "0s")` fails with the InvalidDuration error and creates
no timer. -/
theorem create_duration_examples :
    createTimer ⟨none, Duration.str "2h30m"⟩ "0.a" 0 0 [] =
      Except.ok ("a",
        ⟨[⟨"a", none, 9000000, 0, false, 9000000, 0, TimerStatus.running⟩],
         [⟨TimerEventType.timer_created, "a", none, 0⟩],
         [SchedCmd.schedule "a" 9000000]⟩) ∧
    createTimer ⟨none, Duration.obj 500⟩ "0.b" 0 0 [] =
      Except.ok ("b",
        ⟨[⟨"b", none, 500, 0, false, 500, 0, TimerStatus.running⟩],
         [⟨TimerEventType.timer_created, "b", none, 0⟩],
         [SchedCmd.schedule "b" 500]⟩) ∧
    createTimer ⟨none, Duration.str "0s"⟩ "0.c" 0 0 [] =
      Except.error "Invalid duration format: 0s" :=
  ⟨rfl, rfl, rfl⟩

/-- C7: pause, resume and cancel on a nonexistent id, pause on a record
whose status is not Running, resume on a record whose status is not Paused,
and cancel on a Completed or Canceled record, all return silently with the
store unchanged, no event emitted and no scheduler call issued. -/
theorem lifecycle_noop_guards (store : Store) (id : String) (now : Int) (w : Nat) :
    (storeGet store id = none →
      pauseTimer now w store id = noopResult store ∧
      resumeTimer now w store id = noopResult store ∧
      cancelTimer w store id = noopResult store) ∧
    (∀ t : Timer, storeGet store id = some t →
      (t.status ≠ TimerStatus.running → pauseTimer now w store id = noopResult store) ∧
      (t.status ≠ TimerStatus.paused → resumeTimer now w store id = noopResult store) ∧
      (t.status = TimerStatus.completed ∨ t.status = TimerStatus.canceled →
        cancelTimer w store id = noopResult store)) := by
  constructor
  · intro h
    refine ⟨?_, ?_, ?_⟩ <;> simp [pauseTimer, resumeTimer, cancelTimer, h]
  · intro t ht
    refine ⟨?_, ?_, ?_⟩
    · intro hs
      simp [pauseTimer, ht, hs]
    · intro hs
      simp [resumeTimer, ht, hs]
    · intro hs
      rcases hs with hs | hs <;> simp [cancelTimer, ht, hs]

/-- Witness for the C7 guards: the three operations on an absent id over the
empty store, and cancel on an already-Completed record. -/
theorem lifecycle_noop_guards_witness :
    (pauseTimer 5 3 [] "ghost" = noopResult [] ∧
     resumeTimer 5 3 [] "ghost" = noopResult [] ∧
     cancelTimer 3 [] "ghost" = noopResult []) ∧
    cancelTimer 3 [sampleCompleted] "d1" = noopResult [sampleCompleted] := by
  refine ⟨(lifecycle_noop_guards [] "ghost" 5 3).1 rfl, ?_⟩
  exact ((lifecycle_noop_guards [sampleCompleted] "d1" 5 3).2 sampleCompleted
    (by decide)).2.2 (Or.inl (by decide))

/-- C8: on a stored Running record, `get` returns the record with
`remainingMs` recomputed as `max(0, durationMs − (now − startMonotonicMs))`
and every other field as stored; the store itself is untouched — the listing
and the lookup after the call still yield the persisted values, the stale
`remainingMs` included (the recomputation happens on the copy that
`InMemoryTimerStore.get` returns, never on the stored record). -/
theorem getTimer_recomputes_running_readonly
    (now : Int) (store : Store) (id : String) (t : Timer)
    (hget : storeGet store id = some t)
    (hrun : t.status = TimerStatus.running)
    (hp : t.paused = false) :
    getTimer now store id =
      some { t with remainingMs := max 0 (t.durationMs - (now - t.startMonotonicMs)) } ∧
    listTimers store = store ∧
    storeGet store id = some t := by
  refine ⟨?_, rfl, hget⟩
  simp [getTimer, hget, hrun, hp]

/-- Witness for C8 on a one-record store at monotonic time 400: `get`
recomputes 600 ms left while the stored record still carries 1000. -/
theorem getTimer_recomputes_running_readonly_witness :
    getTimer 400 [sampleRunning] "r1" =
      some { sampleRunning with
             remainingMs := max 0 (sampleRunning.durationMs - (400 - sampleRunning.startMonotonicMs)) } ∧
    listTimers [sampleRunning] = [sampleRunning] ∧
    storeGet [sampleRunning] "r1" = some sampleRunning :=
  getTimer_recomputes_running_readonly 400 [sampleRunning] "r1" sampleRunning
    (by decide) (by decide) (by decide)

/-- C6: pausing a Running timer at monotonic time `now1` snapshots
`remainingMs = max(0, durationMs − (now1 − startMonotonicMs))` — exactly the
value `get` reports immediately before the pause (first conjunct) — and
resuming at any later `now2` restarts the run segment so that `get`
immediately after the resume reports exactly that snapshot again (second
conjunct: the returned record's `remainingMs` equals the snapshot, with the
new anchor `startMonotonicMs = now2` and `durationMs` = the snapshot).  The
third conjunct shows the stored record after the cycle is again Running and
unpaused with the snapshot as its segment duration, so this theorem
re-applies verbatim to the next pause/resume cycle: the equality is
preserved across arbitrarily many cycles. -/
theorem pause_resume_preserves_remaining
    (store : Store) (id : String) (t : Timer) (now1 now2 : Int) (w1 w2 : Nat)
    (hget : storeGet store id = some t)
    (hrun : t.status = TimerStatus.running)
    (hp : t.paused = false)
    (_hle : now1 ≤ now2) :
    (getTimer now1 store id).map Timer.remainingMs =
      some (max 0 (t.durationMs - (now1 - t.startMonotonicMs))) ∧
    getTimer now2 (resumeTimer now2 w2 (pauseTimer now1 w1 store id).store id).store id =
      some { t with startMonotonicMs := now2,
                    durationMs := max 0 (t.durationMs - (now1 - t.startMonotonicMs)),
                    remainingMs := max 0 (t.durationMs - (now1 - t.startMonotonicMs)),
                    paused := false, status := TimerStatus.running } ∧
    storeGet (resumeTimer now2 w2 (pauseTimer now1 w1 store id).store id).store id =
      some { t with startMonotonicMs := now2,
                    durationMs := max 0 (t.durationMs - (now1 - t.startMonotonicMs)),
                    remainingMs := max 0 (t.durationMs - (now1 - t.startMonotonicMs)),
                    paused := false, status := TimerStatus.running } := by
  have hid : t.id = id := storeGet_id hget
  set r : Int := max 0 (t.durationMs - (now1 - t.startMonotonicMs)) with hr
  set t1 : Timer := { t with remainingMs := r, paused := true,
                             status := TimerStatus.paused } with ht1
  have hpause : (pauseTimer now1 w1 store id).store = storePut store t1 := by
    simp [pauseTimer, hget, hrun, hp, ht1]
  have hget1 : storeGet (pauseTimer now1 w1 store id).store id = some t1 := by
    rw [hpause]
    have h := storeGet_storePut_self store t1
    simpa [ht1, hid] using h
  set t2 : Timer := { t with startMonotonicMs := now2, durationMs := r, remainingMs := r,
                             paused := false, status := TimerStatus.running } with ht2
  have hresume : (resumeTimer now2 w2 (pauseTimer now1 w1 store id).store id).store =
      storePut (pauseTimer now1 w1 store id).store t2 := by
    simp [resumeTimer, hget1, ht1, ht2]
  have hget2 : storeGet (resumeTimer now2 w2 (pauseTimer now1 w1 store id).store id).store id =
      some t2 := by
    rw [hresume]
    have h := storeGet_storePut_self (pauseTimer now1 w1 store id).store t2
    simpa [ht2, hid] using h
  refine ⟨?_, ?_, hget2⟩
  · simp [getTimer, hget, hrun, hp]
  · have hmax : max 0 r = r := max_eq_right (le_max_left 0 _)
    simp [getTimer, hget2, ht2, hmax]

/-- A running timer for exercising a pause/resume cycle: a 10 s run started
at monotonic time 0. -/
def cycleTimer : Timer :=
  { id := "w", name := some "egg", durationMs := 10000, startMonotonicMs := 0,
    paused := false, remainingMs := 10000, createdAt := 0,
    status := TimerStatus.running }

/-- Witness for C6: pause at 4000 (snapshot 6000 ms left), resume at 104000;
`get` right after the resume reports the same 6000 ms. -/
theorem pause_resume_preserves_remaining_witness :
    (getTimer 4000 [cycleTimer] "w").map Timer.remainingMs =
      some (max 0 (cycleTimer.durationMs - (4000 - cycleTimer.startMonotonicMs))) ∧
    getTimer 104000 (resumeTimer 104000 2 (pauseTimer 4000 1 [cycleTimer] "w").store "w").store "w" =
      some { cycleTimer with
             startMonotonicMs := 104000,
             durationMs := max 0 (cycleTimer.durationMs - (4000 - cycleTimer.startMonotonicMs)),
             remainingMs := max 0 (cycleTimer.durationMs - (4000 - cycleTimer.startMonotonicMs)),
             paused := false, status := TimerStatus.running } ∧
    storeGet (resumeTimer 104000 2 (pauseTimer 4000 1 [cycleTimer] "w").store "w").store "w" =
      some { cycleTimer with
             startMonotonicMs := 104000,
             durationMs := max 0 (cycleTimer.durationMs - (4000 - cycleTimer.startMonotonicMs)),
             remainingMs := max 0 (cycleTimer.durationMs - (4000 - cycleTimer.startMonotonicMs)),
             paused := false, status := TimerStatus.running } :=
  pause_resume_preserves_remaining [cycleTimer] "w" cycleTimer 4000 104000 1 2
    rfl rfl rfl (by decide)

/-- C9 counterexample: ids are `Math.random().toString(36).substring(2, 15)`
with no uniqueness check against the store, so when the generator repeats a
draw (nothing rules that out for a PRNG), the second create returns an id
already present — and its `put` silently overwrites the first timer's
record.  Here both creates consume the draw rendered `"0.k3j9"`. -/
theorem create_id_collision :
    createTimer ⟨none, Duration.num 100⟩ "0.k3j9" 0 0 [] =
      Except.ok ("k3j9",
        ⟨[⟨"k3j9", none, 100, 0, false, 100, 0, TimerStatus.running⟩],
         [⟨TimerEventType.timer_created, "k3j9", none, 0⟩],
         [SchedCmd.schedule "k3j9" 100]⟩) ∧
    createTimer ⟨none, Duration.num 200⟩ "0.k3j9" 5 5
        [⟨"k3j9", none, 100, 0, false, 100, 0, TimerStatus.running⟩] =
      Except.ok ("k3j9",
        ⟨[⟨"k3j9", none, 200, 5, false, 200, 5, TimerStatus.running⟩],
         [⟨TimerEventType.timer_created, "k3j9", none, 5⟩],
         [SchedCmd.schedule "k3j9" 200]⟩) ∧
    "k3j9" ∈ ([⟨"k3j9", none, 100, 0, false, 100, 0, TimerStatus.running⟩] : Store).map Timer.id :=
  ⟨rfl, rfl, by decide⟩

/-- C9 amended: the id of a created timer is characters 2–14 of the random
draw's base-36 rendering, with no uniqueness check performed; the returned
id is distinct from the ids already in the store exactly when the draw's
rendering differs there from each of them, and in that fresh case the new
record is appended with every existing record left in place. -/
theorem create_id_fresh_iff_draw_fresh
    (store : Store) (randomStr : String) (req : CreateRequest) (now : Int)
    (wall : Nat) (res : String × OpResult)
    (hok : createTimer req randomStr now wall store = Except.ok res)
    (hfresh : ∀ t ∈ store, t.id ≠ generateId randomStr) :
    res.1 = generateId randomStr ∧
    (∀ t ∈ store, t.id ≠ res.1) ∧
    (∃ timer : Timer, timer.id = generateId randomStr ∧
      res.2.store = store ++ [timer]) := by
  cases hd : parseDuration req.duration with
  | error e =>
    rw [createTimer, hd] at hok
    cases hok
  | ok d =>
    rw [createTimer, hd] at hok
    injection hok with h
    subst h
    refine ⟨rfl, hfresh, ?_⟩
    exact ⟨{ id := generateId randomStr, name := req.name, durationMs := d,
             startMonotonicMs := now, paused := false, remainingMs := d,
             createdAt := wall, status := TimerStatus.running },
           rfl, storePut_of_fresh hfresh⟩

/-- A stored timer whose id differs from the next draw's rendering. -/
def aaaTimer : Timer :=
  { id := "aaa", name := none, durationMs := 77, startMonotonicMs := 0,
    paused := false, remainingMs := 77, createdAt := 0,
    status := TimerStatus.running }

/-- The result of creating a 50 ms timer from the draw rendered `"0.bbb"`
over a store holding `aaaTimer`. -/
def freshCreateRes : String × OpResult :=
  ⟨"bbb", ⟨[aaaTimer, ⟨"bbb", none, 50, 0, false, 50, 0, TimerStatus.running⟩],
           [⟨TimerEventType.timer_created, "bbb", none, 0⟩],
           [SchedCmd.schedule "bbb" 50]⟩⟩

/-- Witness for the amended C9 theorem: the draw rendered `"0.bbb"` is fresh
for a store holding only id `"aaa"`. -/
theorem create_id_fresh_iff_draw_fresh_witness :
    freshCreateRes.1 = generateId "0.bbb" ∧
    (∀ t ∈ ([aaaTimer] : Store), t.id ≠ freshCreateRes.1) ∧
    (∃ timer : Timer, timer.id = generateId "0.bbb" ∧
      freshCreateRes.2.store = [aaaTimer] ++ [timer]) :=
  create_id_fresh_iff_draw_fresh [aaaTimer] "0.bbb" ⟨none, Duration.num 50⟩ 0 0
    freshCreateRes rfl (by decide)

/-- C10: the `signal` argument a caller hands to `schedule` is dead weight.
Whether a wake-up's callback runs is decided solely by the internal
controller the scheduler creates per registration
(`if (!abortController.signal.aborted)`): aborting the caller-supplied
signal changes nothing observable (first conjunct), a fresh registration is
live even when the caller's signal is already aborted (second and third
conjuncts), and suppression happens exactly through `cancel(id)` or
`shutdown()`, which abort the internal controllers (last two conjuncts). -/
theorem scheduler_ignores_caller_signal
    (w : PendingWakeUp) (pending : List PendingWakeUp) (id : String)
    (dueInMs : Int) (callerAborted : Bool) :
    firesCallback (abortCallerSignal w) = firesCallback w ∧
    (⟨id, dueInMs, false, callerAborted⟩ : PendingWakeUp) ∈
        nodeSchedule pending id dueInMs callerAborted ∧
    firesCallback ⟨id, dueInMs, false, callerAborted⟩ = true ∧
    (∀ u ∈ nodeCancel pending id, u.id = id → firesCallback u = false) ∧
    (∀ u ∈ nodeShutdown pending, firesCallback u = false) := by
  refine ⟨rfl, ?_, rfl, ?_, ?_⟩
  · simp [nodeSchedule]
  · intro u hu hid
    rw [nodeCancel, List.mem_map] at hu
    obtain ⟨v, _, huv⟩ := hu
    by_cases h : v.id = id
    · rw [if_pos (by simp [h])] at huv
      subst huv
      rfl
    · rw [if_neg (by simp [h])] at huv
      subst huv
      exact absurd hid h
  · intro u hu
    rw [nodeShutdown, List.mem_map] at hu
    obtain ⟨v, _, huv⟩ := hu
    subst huv
    rfl

/-- A live pending wake-up for exercising the scheduler model. -/
def samplePending : PendingWakeUp :=
  ⟨"s1", 1000, false, false⟩

/-- Witness for C10: aborting the caller signal of a live wake-up leaves it
firing; a registration installed under an already-aborted caller signal
fires; the wake-up aborted by `cancel("s1")` does not fire. -/
theorem scheduler_ignores_caller_signal_witness :
    firesCallback (abortCallerSignal samplePending) = firesCallback samplePending ∧
    firesCallback ⟨"s1", 250, false, true⟩ = true ∧
    firesCallback (⟨"s1", 1000, true, false⟩ : PendingWakeUp) = false := by
  have h := scheduler_ignores_caller_signal samplePending [samplePending] "s1" 250 true
  refine ⟨h.1, h.2.2.1, ?_⟩
  exact h.2.2.2.1 ⟨"s1", 1000, true, false⟩ (by decide) rfl

end EggTimer
